import Mathlib

/-!
# Verification of the requests-http2-adapter codec

A shallow embedding of the repository's HTTP/2 frame codec
(`http2-adapter/frame.py`) and HPACK table (`http2-adapter/hpack.py`),
together with theorems settling the specification claims.

Conventions of the embedding:
* Python byte strings are `List Nat` (every element intended `< 256`).
* Python string header names/values are Lean `String`s; `len` is
  `String.length`.
* A function that can raise returns `Except PyErr α`.  `PyErr`
  distinguishes the library's own exception classes
  (`HTTP2FrameError`, `HTTP2HpackEncodeError`, `HTTP2HpackDecodeError`)
  from Python-level errors (`TypeError`, `AttributeError`, `NameError`,
  `IndexError`, `struct.error`) that the source raises through slips
  such as reading an attribute that was never assigned.
* Each definition is translated statement by statement from the named
  source function, including its slips; comments mark where the source
  deviates from the apparent intent.
-/

/-- The distinct failure modes of the translated code.  `frameError`,
`hpackEncodeError` and `hpackDecodeError` are the library's exception
classes; the remaining constructors are Python built-in exceptions. -/
inductive PyErr where
  | frameError
  | hpackEncodeError
  | hpackDecodeError
  | valueError
  | typeError
  | attributeError
  | nameError
  | indexError
  | structError
  deriving DecidableEq, Repr

/-! ## Frame constants (`frame.py` lines 33-86) -/

def HTTP_V2_DATA_FRAME : Nat := 0x0

def HTTP_V2_PRIORITY_FRAME : Nat := 0x2

def HTTP_V2_RST_STREAM_FRAME : Nat := 0x3

def HTTP_V2_SETTINGS_FRAME : Nat := 0x4

def HTTP_V2_CONTINUATION_FRAME : Nat := 0x9

def HTTP_V2_ACK_FLAG : Nat := 0x01

def HTTP_V2_END_STREAM_FLAG : Nat := 0x01

def HTTP_V2_END_HEADERS_FLAG : Nat := 0x04

def HTTP_V2_PADDED_FLAG : Nat := 0x08

def HTTP_V2_PRIORITY_FLAG : Nat := 0x20

def HTTP_V2_SETTINGS_PARAM_SIZE : Nat := 6

def HTTP_V2_STREAM_ID_MASK : Nat := 0x7fffffff

def HTTP_V2_MAX_FRAME_SIZE : Nat := (1 <<< 24) - 1

def HTTP_V2_FRAME_HEADER_SIZE : Nat := 9

/-- The keys of the `HTTP_V2_FRAME_FLAG_NAME` dict: `NO_FLAG`, `ACK` /
`END_STREAM` (both `0x01`, collapsed by the dict), `END_HEADERS`,
`PADDED`, `PRIORITY`. -/
def frameFlagKeys : List Nat := [0x00, 0x01, 0x04, 0x08, 0x20]

/-! ## `HTTP2FrameHeader` -/

/-- The `HTTP2FrameHeader` object state: `__type`, `__length`, `__sid`,
`__flags`.  `__flags` is `Option Nat` because the constructor's
`_flags` parameter defaults to Python `None`. -/
structure FrameHeader where
  type : Nat
  length : Nat
  stream_id : Nat
  flags : Option Nat
  deriving DecidableEq, Repr

/-- `HTTP2FrameHeader.check_frame_type` (frame.py 199-207): rejects a
type outside `0x0..0x9`, and, when `need` is given, a type different
from `need`. -/
def check_frame_type (t : Nat) (need : Option Nat) : Except PyErr Unit :=
  if t > HTTP_V2_CONTINUATION_FRAME then .error .frameError
  else match need with
    | some n => if t ≠ n then .error .frameError else .ok ()
    | none => .ok ()

/-- `HTTP2FrameHeader.check_frame_length` (frame.py 209-213). -/
def check_frame_length (l : Nat) : Except PyErr Unit :=
  if l > HTTP_V2_MAX_FRAME_SIZE then .error .frameError else .ok ()

/-- `HTTP2FrameHeader.check_frame_sid` (frame.py 215-221). -/
def check_frame_sid (sid : Nat) : Except PyErr Unit :=
  if sid > HTTP_V2_STREAM_ID_MASK then .error .frameError else .ok ()

/-- `HTTP2FrameHeader.check_frame_flags` (frame.py 223-232): ors
together every defined flag bit contained in `_flags` and rejects
`_flags` if other bits remain.  Two slips of the source are kept:
`None & flag` raises `TypeError` when `_flags` is `None` (the
constructor's default), and the `raise` line formats the undefined name
`flags`, so an invalid flag set raises `NameError`, not
`HTTP2FrameError`. -/
def check_frame_flags (flags : Option Nat) : Except PyErr Unit :=
  match flags with
  | none => .error .typeError
  | some f =>
      let dummy := frameFlagKeys.foldl
        (fun acc flag => if f &&& flag = flag then acc ||| flag else acc) 0
      if dummy ≠ f then .error .nameError else .ok ()

/-- `HTTP2FrameHeader.__init__` (frame.py 129-137). -/
def HTTP2FrameHeader.init (t l sid : Nat) (flags : Option Nat) :
    Except PyErr FrameHeader := do
  check_frame_type t none
  check_frame_length l
  check_frame_sid sid
  check_frame_flags flags
  return ⟨t, l, sid, flags⟩

/-- Big-endian 4-byte encoding, as produced by `pack` format `I`. -/
def be32 (n : Nat) : List Nat :=
  [n / 2 ^ 24 % 256, n / 2 ^ 16 % 256, n / 2 ^ 8 % 256, n % 256]

/-- Big-endian value of a byte list, as consumed by `unpack` format `I`
on 4 bytes. -/
def beVal (l : List Nat) : Nat :=
  l.foldl (fun acc b => acc * 256 + b) 0

/-- `HTTP2FrameHeader.serialize` (frame.py 143-148):
`pack(">IBI", length << 8 | type, flags, sid)`.  `pack` raises
`struct.error` when an argument is `None` or out of range for its
format code. -/
def HTTP2FrameHeader.serialize (h : FrameHeader) : Except PyErr (List Nat) :=
  let length_type := h.length <<< 8 ||| h.type
  match h.flags with
  | none => .error .structError
  | some f =>
      if length_type < 2 ^ 32 ∧ f < 2 ^ 8 ∧ h.stream_id < 2 ^ 32 then
        .ok (be32 length_type ++ [f] ++ be32 h.stream_id)
      else .error .structError

/-- `HTTP2FrameHeader.has_flag` (frame.py 150-152): the body reads
`self.__flag`, an attribute the constructor never assigns (it assigns
`self.__flags`), so every call raises `AttributeError`. -/
def has_flag (_h : FrameHeader) (_flag : Nat) : Except PyErr Bool :=
  .error .attributeError

/-- `HTTP2FrameHeader.parse_frame_header` (frame.py 179-197): requires
at least 9 octets, then calls
`HTTP2FrameHeader(*unpack(">IBI", data))`.  The three unpacked values
(the combined length/type word, the flags octet, the stream-id word)
are passed positionally as `_type`, `_length`, `_sid`; `_flags` is left
at its default `None`.  The 24-bit length and 8-bit type are never
separated, and the flags octet becomes the length. -/
def parse_frame_header (data : List Nat) : Except PyErr FrameHeader :=
  if data.length < HTTP_V2_FRAME_HEADER_SIZE then .error .frameError
  else match data.take HTTP_V2_FRAME_HEADER_SIZE with
    | [b0, b1, b2, b3, b4, b5, b6, b7, b8] =>
        HTTP2FrameHeader.init (beVal [b0, b1, b2, b3]) b4
          (beVal [b5, b6, b7, b8]) none
    | _ => .error .structError

/-! ## `HTTP2DataFrame` -/

/-- The `HTTP2DataFrame` object state. -/
structure DataFrame where
  header : FrameHeader
  data : List Nat
  pad : Option (List Nat)
  deriving DecidableEq, Repr

/-- `HTTP2DataFrame.__init__` (frame.py 287-297).  The padding
consistency checks are unreachable: `_header.has_flag` raises
`AttributeError` first. -/
def HTTP2DataFrame.init (header : FrameHeader) (data : List Nat)
    (pad : Option (List Nat)) : Except PyErr DataFrame :=
  match check_frame_type header.type (some HTTP_V2_DATA_FRAME) with
  | .error e => .error e
  | .ok _ =>
    match has_flag header HTTP_V2_PADDED_FLAG with
    | .error e => .error e
    | .ok pad_flag =>
        if pad_flag ∧ pad.isNone then .error .frameError
        else if ¬pad_flag ∧ pad.isSome then .error .frameError
        else .ok ⟨header, data, pad⟩

/-- `HTTP2DataFrame.parse_frame` (frame.py 314-345).  Two slips of the
source are kept: the type-mismatch `raise` formats its message with the
nonexistent `HTTP2FrameHeader.get_frame_name`, so it raises
`AttributeError`; and `header.has_flag` raises `AttributeError` (see
`has_flag`), so the pad handling below it never executes. -/
def HTTP2DataFrame.parse_frame (header : FrameHeader) (payload : List Nat) :
    Except PyErr DataFrame :=
  if header.type ≠ HTTP_V2_DATA_FRAME then .error .attributeError
  else if header.length ≠ payload.length then .error .frameError
  else
    match has_flag header HTTP_V2_PADDED_FLAG with
    | .error e => .error e
    | .ok pad_flag =>
        let step : Except PyErr (Nat × List Nat) :=
          if pad_flag then
            if header.length = 0 then .error .frameError
            else .ok (payload.headD 0, payload.tail)
          else .ok (0, payload)
        match step with
        | .error e => .error e
        | .ok (pad_length, payload) =>
            if pad_length ≥ header.length then .error .frameError
            else
              let data_length := header.length - pad_length
              if pad_length = 0 then HTTP2DataFrame.init header payload none
              else HTTP2DataFrame.init header (payload.take data_length)
                (some (payload.drop data_length))

/-! ## `HTTP2PriorityFrame` -/

/-- The `HTTP2PriorityFrame` object state.  The source's constructor
binds the exclusive bit to a local variable (`self__excl`, a slip for
`self.__excl`), so the object carries no exclusive field. -/
structure PriorityFrame where
  header : FrameHeader
  depend : Nat
  weight : Nat
  deriving DecidableEq, Repr

/-- `HTTP2PriorityFrame.__init__` (frame.py 361-375). -/
def HTTP2PriorityFrame.init (header : FrameHeader) (depend weight : Nat)
    (_excl : Bool) : Except PyErr PriorityFrame :=
  match check_frame_type header.type (some HTTP_V2_PRIORITY_FRAME) with
  | .error e => .error e
  | .ok _ =>
    match check_frame_sid depend with
    | .error e => .error e
    | .ok _ =>
        if header.stream_id = 0 then .error .frameError
        else if header.stream_id = depend then .error .frameError
        else if weight < 1 ∨ weight > 256 then .error .frameError
        else .ok ⟨header, depend, weight⟩

/-- `HTTP2PriorityFrame.parse_frame` (frame.py 392-409).
`unpack(">IB", payload)` demands exactly 5 octets.  The exclusive-bit
test `depend & (1 << 32)` is kept as written: it tests bit 32 of a
value unpacked from 4 octets, so it is always false. -/
def HTTP2PriorityFrame.parse_frame (header : FrameHeader)
    (payload : List Nat) : Except PyErr PriorityFrame :=
  if header.type ≠ HTTP_V2_PRIORITY_FRAME then .error .frameError
  else if header.length ≠ payload.length then .error .frameError
  else match payload with
    | [b0, b1, b2, b3, b4] =>
        let depend := beVal [b0, b1, b2, b3]
        let excl := depend &&& (1 <<< 32) ≠ 0
        HTTP2PriorityFrame.init header depend b4 excl
    | _ => .error .structError

/-! ## `HTTP2SettingsFrame` -/

/-- The `HTTP2SettingsFrame` object state. -/
structure SettingsFrame where
  header : FrameHeader
  settings : List (Nat × Nat)
  deriving DecidableEq, Repr

/-- `HTTP2SettingsFrame.__init__` (frame.py 478-500).  Slips of the
source kept here: `_header.has_flag` raises `AttributeError`, so
everything after the stream-id check is unreachable; and the per-item
validation loop compares against the undefined name
`SETTINGS_MAX_HEADER_LIST_SIZE` (and lacks a line continuation), so a
nonempty settings list could never be validated. -/
def HTTP2SettingsFrame.init (header : FrameHeader)
    (settings : List (Nat × Nat)) : Except PyErr SettingsFrame :=
  match check_frame_type header.type (some HTTP_V2_SETTINGS_FRAME) with
  | .error e => .error e
  | .ok _ =>
    if header.stream_id ≠ 0 then .error .frameError
    else
      match has_flag header HTTP_V2_ACK_FLAG with
      | .error e => .error e
      | .ok ack =>
          if ack ∧ header.length > 0 then .error .frameError
          else if header.length ≠ settings.length * HTTP_V2_SETTINGS_PARAM_SIZE
            then .error .frameError
          else if settings.length > 0 then .error .nameError
          else .ok ⟨header, settings⟩

/-- `HTTP2SettingsFrame.parse_frame` (frame.py 515-537).  Slips of the
source kept here: the type check requires `HTTP_V2_RST_STREAM_FRAME`
(0x3), so a real SETTINGS header (type 0x4) is always rejected with
`HTTP2FrameError`; the length modulus is `HTTP_V2_SETTINGS_FRAME` (the
frame-type constant 4), not the entry size 6; and the entry loop (a
misplaced parenthesis, `unpack(">BI")` on a 6-octet slice) could never
decode an entry, so a nonzero length is modelled as `struct.error`
when reached. -/
def HTTP2SettingsFrame.parse_frame (header : FrameHeader)
    (payload : List Nat) : Except PyErr SettingsFrame :=
  match check_frame_type header.type (some HTTP_V2_RST_STREAM_FRAME) with
  | .error e => .error e
  | .ok _ =>
    if header.length % HTTP_V2_SETTINGS_FRAME ≠ 0 then .error .frameError
    else if header.length ≠ payload.length then .error .frameError
    else if header.length > 0 then .error .structError
    else HTTP2SettingsFrame.init header []

/-! ## HPACK (`hpack.py`) -/

/-- The static table literal (hpack.py 16-78), kept as the 61 pairs
listed there, including its misspelled entry names
(`content-rang`, `if-rang`, `max-forward`, `www-authenticat`).  Two
syntax slips in the literal (a missing comma after `(":path", "/")` and
a truncated `access-control-allow-origin` entry) are repaired to the
two intended pairs. -/
def hpack_static_table : List (String × String) :=
  [(":authority", ""),
   (":method", "GET"),
   (":method", "POST"),
   (":path", "/"),
   (":path", "/index.html"),
   (":scheme", "http"),
   (":scheme", "https"),
   (":status", "200"),
   (":status", "204"),
   (":status", "206"),
   (":status", "304"),
   (":status", "400"),
   (":status", "404"),
   (":status", "500"),
   ("accept-charset", ""),
   ("accept-encoding", "gzip, deflate"),
   ("accept-language", ""),
   ("accept-ranges", ""),
   ("accept", ""),
   ("access-control-allow-origin", ""),
   ("age", ""),
   ("allow", ""),
   ("authorization", ""),
   ("cache-control", ""),
   ("content-disposition", ""),
   ("content-encoding", ""),
   ("content-language", ""),
   ("content-length", ""),
   ("content-location", ""),
   ("content-rang", ""),
   ("content-type", ""),
   ("cookie", ""),
   ("date", ""),
   ("etag", ""),
   ("expect", ""),
   ("expires", ""),
   ("from", ""),
   ("host", ""),
   ("if-match", ""),
   ("if-modified-since", ""),
   ("if-none-match", ""),
   ("if-rang", ""),
   ("if-unmodified-since", ""),
   ("last-modified", ""),
   ("link", ""),
   ("location", ""),
   ("max-forward", ""),
   ("proxy-authenticate", ""),
   ("proxy-authorization", ""),
   ("range", ""),
   ("referer", ""),
   ("refresh", ""),
   ("retry-after", ""),
   ("server", ""),
   ("set-cookie", ""),
   ("strict-transport-security", ""),
   ("transfer-encoding", ""),
   ("user-agent", ""),
   ("vary", ""),
   ("via", ""),
   ("www-authenticat", "")]

/-- `len(item[0]) + len(item[1]) + 32`, the RFC 7541 entry size used
throughout `hpack.py`. -/
def entrySize (e : String × String) : Nat :=
  e.1.length + e.2.length + 32

/-- Sum of entry sizes over a dynamic table. -/
def sumSize (l : List (String × String)) : Nat :=
  (l.map entrySize).sum

/-- The `HTTP2Hpack` object state: `__static`, `__dynamic`,
`__dynamic_table_size`, `__max_dynamic_table_size`. -/
structure HTTP2Hpack where
  static : List (String × String)
  dynamic : List (String × String)
  dynamic_table_size : Nat
  max_dynamic_table_size : Nat
  deriving DecidableEq, Repr

/-- `HTTP2Hpack.__init__` (hpack.py 100-112).  A slip of the source is
kept: the oversized-initial-table `raise` names `HTTP2HpackError`,
which `hpack.py` never imports, so that branch raises `NameError`. -/
def HTTP2Hpack.init (dynamic : List (String × String)) (max_size : Nat) :
    Except PyErr HTTP2Hpack :=
  let size := sumSize dynamic
  if size > max_size then .error .nameError
  else .ok ⟨hpack_static_table, dynamic, size, max_size⟩

/-- The eviction loop of `HTTP2Hpack.__check_dynamic_table`
(hpack.py 133-139): walks the dynamic table from the front, counting
`index` up and subtracting entry sizes from `temp`, and stops as soon
as `temp + size <= max` (or when the table is exhausted).  `temp` is a
Python integer, so it is modelled as `Int`. -/
def evictIndex (max_size size : Nat) : Int → List (String × String) → Nat → Nat
  | _, [], index => index
  | temp, e :: rest, index =>
      let temp' := temp - entrySize e
      if temp' + (size : Int) ≤ (max_size : Int) then index + 1
      else evictIndex max_size size temp' rest (index + 1)

/-- `HTTP2Hpack.__check_dynamic_table` (hpack.py 114-142).  Returns the
updated object state and the boolean result.  Two behaviours of the
source are kept: the fast path uses a strict `<`, and neither branch
ever updates `__dynamic_table_size` (the eviction branch only slices
`__dynamic`). -/
def HTTP2Hpack.check_dynamic_table (st : HTTP2Hpack) (size : Nat) :
    HTTP2Hpack × Bool :=
  if st.dynamic_table_size + size < st.max_dynamic_table_size then (st, true)
  else if size > st.max_dynamic_table_size then
    ({ st with dynamic := [] }, false)
  else
    let index := evictIndex st.max_dynamic_table_size size
      (st.dynamic_table_size : Int) st.dynamic 0
    ({ st with dynamic := st.dynamic.drop index }, true)

/-- `HTTP2Hpack.append_header` (hpack.py 144-155), on a tuple argument:
computes `size = 32 + len(header[0]) + len(header[1])`, consults
`__check_dynamic_table`, and appends the entry at the back of
`__dynamic` when it answered `True`.  `__dynamic_table_size` is never
increased -- a slip of the source. -/
def HTTP2Hpack.append_header (st : HTTP2Hpack) (e : String × String) :
    HTTP2Hpack :=
  let size := 32 + e.1.length + e.2.length
  let res := st.check_dynamic_table size
  if res.2 then { res.1 with dynamic := res.1.dynamic ++ [e] } else res.1

/-- A Python value as passed to `append_header` / `inside_index_table`:
either a tuple of two strings or one of the non-tuple shapes the
`isinstance(header, tuple)` guard rejects. -/
inductive PyVal where
  | tuple (name value : String)
  | pystr (s : String)
  | pyint (n : Int)
  | pylist (l : List (String × String))
  | pynone
  deriving DecidableEq, Repr

/-- `isinstance(header, tuple)`. -/
def PyVal.isTuple : PyVal → Bool
  | .tuple _ _ => true
  | _ => false

/-- `HTTP2Hpack.append_header` (hpack.py 144-155) on an arbitrary
Python value: a non-tuple argument raises `ValueError` before any
state is touched, so the object state is returned unchanged beside the
exception. -/
def HTTP2Hpack.append_header_py (st : HTTP2Hpack) (v : PyVal) :
    HTTP2Hpack × Option PyErr :=
  match v with
  | .tuple name value => (st.append_header (name, value), none)
  | _ => (st, some .valueError)

/-- `HTTP2Hpack.inside_index_table` (hpack.py 157-168): `ValueError`
on a non-tuple argument, else membership in `__dynamic` only. -/
def HTTP2Hpack.inside_index_table (st : HTTP2Hpack) (v : PyVal) :
    Except PyErr Bool :=
  match v with
  | .tuple name value => .ok (st.dynamic.contains (name, value))
  | _ => .error .valueError

/-- Python sequence subscription `l[i]`: a negative index counts from
the back; only an index out of range on both ends raises
`IndexError`. -/
def pyIndex (l : List (String × String)) (i : Int) :
    Except PyErr (String × String) :=
  let j := if i < 0 then i + l.length else i
  if h : 0 ≤ j ∧ j.toNat < l.length then .ok (l.get ⟨j.toNat, h.2⟩)
  else .error .indexError

/-- `HTTP2Hpack.decode_indexed` (hpack.py 200-214): decrements the
1-based index, resolves in `__static` when `index < len(static)`, else
shifts by `len(static)` and resolves in `__dynamic`, raising
`HTTP2HpackDecodeError` past the end.  The missing lower bound check is
kept: for argument `0` the decremented index is `-1`, which Python
subscription resolves to the LAST static entry. -/
def HTTP2Hpack.decode_indexed (st : HTTP2Hpack) (index : Int) :
    Except PyErr (String × String) :=
  let index := index - 1
  if index < (st.static.length : Int) then pyIndex st.static index
  else
    let index := index - st.static.length
    if index < (st.dynamic.length : Int) then pyIndex st.dynamic index
    else .error .hpackDecodeError

/-! ## Huffman coder

Modelled from the spec: the `HTTP2Huffman` class imported by
`tests/test_huffman.py` (from the `http2_adapter` package) is not among
the provided sources -- only its test and the package's `compat.py`
are.  The definitions below follow section 4.4 of the specification:
`encode(text, lower) -> bits` maps each input byte (optionally
lower-casing ASCII letters first) to its canonical RFC 7541 Appendix B
code, concatenates the bit patterns and pads the final byte with the
most-significant bits of the EOS code (the EOS code is thirty 1-bits,
so the padding is 1-bits); `decode(bits) -> text` walks the canonical
code tree, emitting symbols, and accepts the remaining bits only when
fewer than 8 remain and all of them are EOS-prefix (1) bits, failing
with `HpackDecodeError` otherwise.
-/

/-- The canonical Huffman code of RFC 7541 Appendix B for the 256 byte
symbols, as `(code value, bit length)` pairs, indexed by symbol. -/
def huffmanPairs : List (Nat × Nat) := [
  (8184, 13), (8388568, 23), (268435426, 28), (268435427, 28), (268435428, 28), (268435429, 28), (268435430, 28), (268435431, 28), 
  (268435432, 28), (16777194, 24), (1073741820, 30), (268435433, 28), (268435434, 28), (1073741821, 30), (268435435, 28), (268435436, 28), 
  (268435437, 28), (268435438, 28), (268435439, 28), (268435440, 28), (268435441, 28), (268435442, 28), (1073741822, 30), (268435443, 28), 
  (268435444, 28), (268435445, 28), (268435446, 28), (268435447, 28), (268435448, 28), (268435449, 28), (268435450, 28), (268435451, 28), 
  (20, 6), (1016, 10), (1017, 10), (4090, 12), (8185, 13), (21, 6), (248, 8), (2042, 11), 
  (1018, 10), (1019, 10), (249, 8), (2043, 11), (250, 8), (22, 6), (23, 6), (24, 6), 
  (0, 5), (1, 5), (2, 5), (25, 6), (26, 6), (27, 6), (28, 6), (29, 6), 
  (30, 6), (31, 6), (92, 7), (251, 8), (32764, 15), (32, 6), (4091, 12), (1020, 10), 
  (8186, 13), (33, 6), (93, 7), (94, 7), (95, 7), (96, 7), (97, 7), (98, 7), 
  (99, 7), (100, 7), (101, 7), (102, 7), (103, 7), (104, 7), (105, 7), (106, 7), 
  (107, 7), (108, 7), (109, 7), (110, 7), (111, 7), (112, 7), (113, 7), (114, 7), 
  (252, 8), (115, 7), (253, 8), (8187, 13), (524272, 19), (8188, 13), (16380, 14), (34, 6), 
  (32765, 15), (3, 5), (35, 6), (4, 5), (36, 6), (5, 5), (37, 6), (38, 6), 
  (39, 6), (6, 5), (116, 7), (117, 7), (40, 6), (41, 6), (42, 6), (7, 5), 
  (43, 6), (118, 7), (44, 6), (8, 5), (9, 5), (45, 6), (119, 7), (120, 7), 
  (121, 7), (122, 7), (123, 7), (32766, 15), (2044, 11), (16381, 14), (8189, 13), (268435452, 28), 
  (1048550, 20), (4194258, 22), (1048551, 20), (1048552, 20), (4194259, 22), (4194260, 22), (4194261, 22), (8388569, 23), 
  (4194262, 22), (8388570, 23), (8388571, 23), (8388572, 23), (8388573, 23), (8388574, 23), (16777195, 24), (8388575, 23), 
  (16777196, 24), (16777197, 24), (4194263, 22), (8388576, 23), (16777198, 24), (8388577, 23), (8388578, 23), (8388579, 23), 
  (8388580, 23), (2097116, 21), (4194264, 22), (8388581, 23), (4194265, 22), (8388582, 23), (8388583, 23), (16777199, 24), 
  (4194266, 22), (2097117, 21), (1048553, 20), (4194267, 22), (4194268, 22), (8388584, 23), (8388585, 23), (2097118, 21), 
  (8388586, 23), (4194269, 22), (4194270, 22), (16777200, 24), (2097119, 21), (4194271, 22), (8388587, 23), (8388588, 23), 
  (2097120, 21), (2097121, 21), (4194272, 22), (2097122, 21), (8388589, 23), (4194273, 22), (8388590, 23), (8388591, 23), 
  (1048554, 20), (4194274, 22), (4194275, 22), (4194276, 22), (8388592, 23), (4194277, 22), (4194278, 22), (8388593, 23), 
  (67108832, 26), (67108833, 26), (1048555, 20), (524273, 19), (4194279, 22), (8388594, 23), (4194280, 22), (33554412, 25), 
  (67108834, 26), (67108835, 26), (67108836, 26), (134217694, 27), (134217695, 27), (67108837, 26), (16777201, 24), (33554413, 25), 
  (524274, 19), (2097123, 21), (67108838, 26), (134217696, 27), (134217697, 27), (67108839, 26), (134217698, 27), (16777202, 24), 
  (2097124, 21), (2097125, 21), (67108840, 26), (67108841, 26), (268435453, 28), (134217699, 27), (134217700, 27), (134217701, 27), 
  (1048556, 20), (16777203, 24), (1048557, 20), (2097126, 21), (4194281, 22), (2097127, 21), (2097128, 21), (8388595, 23), 
  (4194282, 22), (4194283, 22), (33554414, 25), (33554415, 25), (16777204, 24), (16777205, 24), (67108842, 26), (8388596, 23), 
  (67108843, 26), (134217702, 27), (67108844, 26), (67108845, 26), (134217703, 27), (134217704, 27), (134217705, 27), (134217706, 27), 
  (134217707, 27), (268435454, 28), (134217708, 27), (134217709, 27), (134217710, 27), (134217711, 27), (134217712, 27), (67108846, 26)   ]

/-- The MSB-first bit pattern of a symbol's canonical code. -/
def huffman_code (s : Nat) : List Bool :=
  let p := huffmanPairs.getD s (0, 0)
  (List.range p.2).reverse.map fun i => p.1.testBit i

/-- A node of the canonical code tree: an inner node branches on one
bit (`false` left, `true` right); a leaf carries a decoded symbol. -/
inductive HTree where
  | nil
  | leaf (sym : Nat)
  | node (l r : HTree)
  deriving DecidableEq, Repr

/-- Inserts a symbol at the end of a code path, extending branches as
needed. -/
def HTree.insert : HTree → List Bool → Nat → HTree
  | _, [], s => .leaf s
  | .node l r, b :: bs, s =>
      if b then .node l (r.insert bs s) else .node (l.insert bs s) r
  | _, b :: bs, s =>
      if b then .node .nil (HTree.nil.insert bs s)
      else .node (HTree.nil.insert bs s) .nil

/-- The canonical code tree holding all 256 symbol codes. -/
def huffmanTree : HTree :=
  (List.range 256).foldl (fun t s => t.insert (huffman_code s) s) .nil

/-- Follows a bit path through the tree, returning the subtree it ends
at (and `none` if the path leaves the tree or crosses a leaf). -/
def HTree.navigate : HTree → List Bool → Option HTree
  | t, [] => some t
  | .node l r, b :: bs => HTree.navigate (if b then r else l) bs
  | .leaf _, _ :: _ => none
  | .nil, _ :: _ => none

/-- One decoding step: walks the tree until a leaf, returning the
decoded symbol and the unconsumed bits, or `none` when the bits run
out (or leave the tree) before a leaf is reached. -/
def HTree.walk : HTree → List Bool → Option (Nat × List Bool)
  | .leaf s, rest => some (s, rest)
  | .node l r, b :: bs => HTree.walk (if b then r else l) bs
  | .node _ _, [] => none
  | .nil, _ => none

/-- The decoding loop: emits symbols while a complete code is present;
at the end, accepts only EOS-prefix padding (all 1-bits, fewer than
8).  `fuel` bounds the recursion; `hdecode` supplies enough. -/
def hdecodeAux (t : HTree) : Nat → List Bool → List Nat →
    Except PyErr (List Nat)
  | 0, _, _ => .error .hpackDecodeError
  | fuel + 1, bits, acc =>
      match t.walk bits with
      | some (s, rest) => hdecodeAux t fuel rest (acc ++ [s])
      | none =>
          if bits.length < 8 ∧ bits.all (· = true) then .ok acc
          else .error .hpackDecodeError

/-- Lower-cases one ASCII byte. -/
def lowerByte (b : Nat) : Nat :=
  if 65 ≤ b ∧ b ≤ 90 then b + 32 else b

/-- `HTTP2Huffman.encode`: optional lower-casing, then code
concatenation, then EOS-bit padding to a byte boundary. -/
def hencode (s : List Nat) (lower : Bool) : List Bool :=
  let s' := if lower then s.map lowerByte else s
  let bits := s'.flatMap huffman_code
  bits ++ List.replicate ((8 - bits.length % 8) % 8) true

/-- `HTTP2Huffman.decode`: walks the canonical code tree over the
bits. -/
def hdecode (bits : List Bool) : Except PyErr (List Nat) :=
  hdecodeAux huffmanTree (bits.length + 1) bits []

set_option maxRecDepth 100000 in
/-- The code tree is consistent with the code table: navigating each
symbol's code path lands exactly on that symbol's leaf. -/
theorem huffmanTree_consistent : ((List.range 256).all fun s =>
    decide (huffmanTree.navigate (huffman_code s) = some (.leaf s))) = true := by
  decide

set_option maxRecDepth 100000 in
/-- Every canonical code is nonempty. -/
theorem huffman_code_nonempty : ((List.range 256).all fun s =>
    decide (0 < (huffman_code s).length)) = true := by decide

set_option maxRecDepth 100000 in
/-- No prefix of EOS padding (fewer than 8 one-bits) reaches a leaf. -/
theorem huffmanTree_pad_stalls : ((List.range 8).all fun k =>
    decide (huffmanTree.walk (List.replicate k true) = none)) = true := by decide

/-- Pointwise form of `huffmanTree_consistent`. -/
theorem navigate_code (s : Nat) (hs : s < 256) :
    huffmanTree.navigate (huffman_code s) = some (.leaf s) :=
  of_decide_eq_true
    (List.all_eq_true.mp huffmanTree_consistent s (List.mem_range.mpr hs))

/-- Pointwise form of `huffman_code_nonempty`. -/
theorem code_length_pos (s : Nat) (hs : s < 256) :
    0 < (huffman_code s).length :=
  of_decide_eq_true
    (List.all_eq_true.mp huffman_code_nonempty s (List.mem_range.mpr hs))

/-- Pointwise form of `huffmanTree_pad_stalls`. -/
theorem walk_pad (k : Nat) (hk : k < 8) :
    huffmanTree.walk (List.replicate k true) = none :=
  of_decide_eq_true
    (List.all_eq_true.mp huffmanTree_pad_stalls k (List.mem_range.mpr hk))

/-- Walking a tree along a full code path followed by arbitrary bits
decodes the symbol at that path and leaves the remaining bits. -/
theorem walk_of_navigate (bits : List Bool) : ∀ (t : HTree) (s : Nat)
    (rest : List Bool), t.navigate bits = some (.leaf s) →
    t.walk (bits ++ rest) = some (s, rest) := by
  induction bits with
  | nil =>
      intro t s rest h
      simp [HTree.navigate] at h
      subst h
      simp [HTree.walk]
  | cons b bs ih =>
      intro t s rest h
      cases t with
      | nil => simp [HTree.navigate] at h
      | leaf x => simp [HTree.navigate] at h
      | node l r =>
          have h' : HTree.navigate (if b then r else l) bs = some (.leaf s) := h
          simpa [HTree.walk] using ih (if b then r else l) s rest h'

/-- The decoding loop inverts code concatenation: given enough fuel,
emitted codes followed by EOS padding decode back to the symbols. -/
theorem hdecodeAux_roundtrip (s : List Nat) : ∀ (acc : List Nat) (p fuel : Nat),
    (∀ b ∈ s, b < 256) → p < 8 →
    fuel ≥ (s.flatMap huffman_code).length + p + 1 →
    hdecodeAux huffmanTree fuel
      (s.flatMap huffman_code ++ List.replicate p true) acc = .ok (acc ++ s) := by
  induction s with
  | nil =>
      intro acc p fuel _ hp hf
      cases fuel with
      | zero => omega
      | succ f =>
          simp only [List.flatMap_nil, List.nil_append, hdecodeAux,
            walk_pad p hp]
          have hcond : (List.replicate p true).length < 8 ∧
              ((List.replicate p true).all fun x => decide (x = true)) = true := by
            refine ⟨by simpa using hp, ?_⟩
            rw [List.all_eq_true]
            intro x hx
            simpa using List.eq_of_mem_replicate hx
          rw [if_pos hcond]
          simp
  | cons c cs ih =>
      intro acc p fuel hs hp hf
      have hc : c < 256 := hs c (List.mem_cons_self c cs)
      have hlen : 0 < (huffman_code c).length := code_length_pos c hc
      have hwalk := walk_of_navigate (huffman_code c) huffmanTree c
        (cs.flatMap huffman_code ++ List.replicate p true) (navigate_code c hc)
      rw [List.flatMap_cons, List.length_append] at hf
      cases fuel with
      | zero => omega
      | succ f =>
          have hbits : (huffman_code c ++ cs.flatMap huffman_code)
                ++ List.replicate p true
              = huffman_code c ++ (cs.flatMap huffman_code ++ List.replicate p true) := by
            simp [List.append_assoc]
          rw [List.flatMap_cons, hbits]
          simp only [hdecodeAux, hwalk]
          have hf' : f ≥ (cs.flatMap huffman_code).length + p + 1 := by omega
          have := ih (acc ++ [c]) p f (fun b hb => hs b (List.mem_cons_of_mem c hb)) hp hf'
          simpa [List.append_assoc] using this

/-- `lowerByte` keeps values below 256. -/
theorem lowerByte_lt (b : Nat) (hb : b < 256) : lowerByte b < 256 := by
  unfold lowerByte
  split <;> omega

theorem hdecode_hencode (u : List Nat) (hu : ∀ b ∈ u, b < 256) :
    hdecode (u.flatMap huffman_code ++
      List.replicate ((8 - (u.flatMap huffman_code).length % 8) % 8) true)
      = .ok u := by
  unfold hdecode
  have hp : (8 - (u.flatMap huffman_code).length % 8) % 8 < 8 :=
    Nat.mod_lt _ (by omega)
  have hfuel : (u.flatMap huffman_code ++
      List.replicate ((8 - (u.flatMap huffman_code).length % 8) % 8) true).length + 1
      ≥ (u.flatMap huffman_code).length
        + ((8 - (u.flatMap huffman_code).length % 8) % 8) + 1 := by
    simp [List.length_append]
  simpa using hdecodeAux_roundtrip u [] _ _ hu hp hfuel

/-- C8: Huffman round trip. -/
theorem C8_huffman_roundtrip (s : List Nat) (hs : ∀ b ∈ s, b < 256) :
    hdecode (hencode s false) = .ok s ∧
    hdecode (hencode s true) = .ok (s.map lowerByte) := by
  constructor
  · simpa [hencode] using hdecode_hencode s hs
  · have hs' : ∀ b ∈ s.map lowerByte, b < 256 := by
      intro b hb
      obtain ⟨a, ha, rfl⟩ := List.mem_map.mp hb
      exact lowerByte_lt a (hs a ha)
    simpa [hencode] using hdecode_hencode (s.map lowerByte) hs'

/-- C8 witness at the test's first input, the byte string "H". -/
theorem C8_huffman_roundtrip_witness :
    hdecode (hencode [72] false) = .ok [72] ∧
    hdecode (hencode [72] true) = .ok ([72].map lowerByte) :=
  C8_huffman_roundtrip [72] (by decide)

/-! ## Claim theorems for the frame codec -/

/-- C1: the frame-header round trip fails on the code.  The valid
header (type DATA, length 1, stream 0, no flags) serializes to 9
octets, but `parse_frame_header` hands the combined length/type word
to the constructor as the frame type, which the type check rejects
with `HTTP2FrameError`. -/
theorem C1_parse_serialize_diverges :
    HTTP2FrameHeader.init 0 1 0 (some 0) = .ok ⟨0, 1, 0, some 0⟩ ∧
    HTTP2FrameHeader.serialize ⟨0, 1, 0, some 0⟩
      = .ok [0, 0, 1, 0, 0, 0, 0, 0, 0] ∧
    parse_frame_header [0, 0, 1, 0, 0, 0, 0, 0, 0] = .error .frameError :=
  ⟨rfl, rfl, rfl⟩

/-- C5: parsing the PADDED DATA frame of the claim does not yield a
frame with 0 data and 4 padding bytes, and the oversized-pad case does
not raise `HTTP2FrameError`: both calls die earlier with
`AttributeError`, because `header.has_flag` reads the never-assigned
attribute `self.__flag`.  The header itself (type DATA, length 5,
PADDED flag) is accepted by the constructor. -/
theorem C5_data_parse_raises_attribute_error :
    HTTP2FrameHeader.init 0 5 1 (some 8) = .ok ⟨0, 5, 1, some 8⟩ ∧
    HTTP2DataFrame.parse_frame ⟨0, 5, 1, some 8⟩ [4, 0, 0, 0, 0]
      = .error .attributeError ∧
    HTTP2DataFrame.parse_frame ⟨0, 5, 1, some 8⟩ [5, 0, 0, 0, 0]
      = .error .attributeError :=
  ⟨rfl, rfl, rfl⟩

/-- Whether a translated call raised (any exception). -/
def isFailure {α : Type} : Except PyErr α → Bool
  | .error _ => true
  | .ok _ => false

/-- C6: every SETTINGS frame header with the ACK flag and nonzero
length fails to construct and fails to parse, and every SETTINGS frame
whose length is not a multiple of 6 fails to parse with
`HTTP2FrameError`.  Both hold degenerately: the parser validates the
type against `HTTP_V2_RST_STREAM_FRAME`, so it rejects every real
SETTINGS header with `HTTP2FrameError`, and the constructor reaches
`has_flag`, which always raises. -/
theorem C6_settings_reject (h : FrameHeader) (sets : List (Nat × Nat))
    (payload : List Nat) (ht : h.type = HTTP_V2_SETTINGS_FRAME) :
    ((∃ f, h.flags = some f ∧ f &&& HTTP_V2_ACK_FLAG = HTTP_V2_ACK_FLAG) →
      0 < h.length →
      isFailure (HTTP2SettingsFrame.init h sets) = true ∧
      isFailure (HTTP2SettingsFrame.parse_frame h payload) = true) ∧
    (h.length % HTTP_V2_SETTINGS_PARAM_SIZE ≠ 0 →
      HTTP2SettingsFrame.parse_frame h payload = .error .frameError) := by
  have hparse : HTTP2SettingsFrame.parse_frame h payload = .error .frameError := by
    unfold HTTP2SettingsFrame.parse_frame
    rw [ht]
    rfl
  have hinit : isFailure (HTTP2SettingsFrame.init h sets) = true := by
    have hok : check_frame_type HTTP_V2_SETTINGS_FRAME (some HTTP_V2_SETTINGS_FRAME)
        = .ok () := rfl
    simp only [HTTP2SettingsFrame.init, ht, hok]
    split
    · rfl
    · rfl
  exact ⟨fun _ _ => ⟨hinit, by rw [hparse]; rfl⟩, fun _ => hparse⟩

/-- C6 witness: a SETTINGS header with ACK and length 6, and one with
length 7 (not a multiple of 6). -/
theorem C6_settings_reject_witness :
    (isFailure (HTTP2SettingsFrame.init ⟨4, 6, 0, some 1⟩ []) = true ∧
     isFailure (HTTP2SettingsFrame.parse_frame ⟨4, 6, 0, some 1⟩ []) = true) ∧
    HTTP2SettingsFrame.parse_frame ⟨4, 7, 0, some 1⟩ [] = .error .frameError :=
  ⟨(C6_settings_reject ⟨4, 6, 0, some 1⟩ [] [] rfl).1 ⟨1, rfl, rfl⟩ (by decide),
   (C6_settings_reject ⟨4, 7, 0, some 1⟩ [] [] rfl).2 (by decide)⟩

/-- Reduction of `HTTP2PriorityFrame.init` once the frame-type check
has passed. -/
theorem priority_init_reduce (h : FrameHeader) (depend weight : Nat)
    (excl : Bool) (ht : h.type = HTTP_V2_PRIORITY_FRAME) :
    HTTP2PriorityFrame.init h depend weight excl
      = match check_frame_sid depend with
        | .error e => .error e
        | .ok _ =>
            if h.stream_id = 0 then .error .frameError
            else if h.stream_id = depend then .error .frameError
            else if weight < 1 ∨ weight > 256 then .error .frameError
            else .ok ⟨h, depend, weight⟩ := by
  unfold HTTP2PriorityFrame.init
  rw [ht]
  rfl

/-- C7: a PRIORITY frame whose dependency equals its own stream id is
rejected, weights 0 and 257 are rejected, weights 1 and 256 are
accepted (nonzero stream id, in-range dependency different from the
stream id), and parsing a 5-octet payload whose dependency word equals
the stream id (or whose weight octet is 0) is rejected as well. -/
theorem C7_priority_rules (h : FrameHeader) (depend weight : Nat)
    (excl : Bool) (ht : h.type = HTTP_V2_PRIORITY_FRAME) :
    (h.stream_id = depend →
      isFailure (HTTP2PriorityFrame.init h depend weight excl) = true) ∧
    (weight = 0 ∨ weight = 257 →
      isFailure (HTTP2PriorityFrame.init h depend weight excl) = true) ∧
    (h.stream_id ≠ 0 → depend ≤ HTTP_V2_STREAM_ID_MASK →
      h.stream_id ≠ depend → weight = 1 ∨ weight = 256 →
      HTTP2PriorityFrame.init h depend weight excl = .ok ⟨h, depend, weight⟩) ∧
    (∀ b0 b1 b2 b3 b4 : Nat, h.length = 5 →
      (beVal [b0, b1, b2, b3] = h.stream_id ∨ b4 = 0) →
      isFailure (HTTP2PriorityFrame.parse_frame h [b0, b1, b2, b3, b4]) = true) := by
  have init_fail : ∀ d w : Nat, ∀ e : Bool,
      (h.stream_id = d ∨ w = 0) →
      isFailure (HTTP2PriorityFrame.init h d w e) = true := by
    intro d w e hdw
    rw [priority_init_reduce h d w e ht]
    by_cases hd : d > HTTP_V2_STREAM_ID_MASK
    · simp [check_frame_sid, hd, isFailure]
    · simp only [check_frame_sid, if_neg hd]
      by_cases h0 : h.stream_id = 0
      · simp [h0, isFailure]
      · rcases hdw with hdep | hw0
        · simp [h0, hdep, isFailure]
        · by_cases hsd : h.stream_id = d
          · simp [h0, hsd, isFailure]
          · simp [h0, hsd, hw0, isFailure]
  refine ⟨?_, ?_, ?_, ?_⟩
  · intro hdep
    exact init_fail depend weight excl (Or.inl hdep)
  · intro hw
    rw [priority_init_reduce h depend weight excl ht]
    by_cases hd : depend > HTTP_V2_STREAM_ID_MASK
    · simp [check_frame_sid, hd, isFailure]
    · simp only [check_frame_sid, if_neg hd]
      by_cases h0 : h.stream_id = 0
      · simp [h0, isFailure]
      · by_cases hsd : h.stream_id = depend
        · simp [h0, hsd, isFailure]
        · rcases hw with rfl | rfl <;> simp [h0, hsd, isFailure]
  · intro h0 hd hsd hw
    rw [priority_init_reduce h depend weight excl ht]
    have hd' : ¬ depend > HTTP_V2_STREAM_ID_MASK := by omega
    have hw' : ¬ (weight < 1 ∨ weight > 256) := by
      rcases hw with h1 | h1 <;> omega
    simp [check_frame_sid, hd', h0, hsd, hw']
    omega
  · intro b0 b1 b2 b3 b4 hlen hcase
    unfold HTTP2PriorityFrame.parse_frame
    rw [ht]
    have hlen5 : ¬ ((5 : Nat) ≠ ([b0, b1, b2, b3, b4] : List Nat).length) := by
      simp
    simp only [hlen, if_neg hlen5, if_neg (by simp : ¬ (HTTP_V2_PRIORITY_FRAME ≠ HTTP_V2_PRIORITY_FRAME))]
    exact init_fail (beVal [b0, b1, b2, b3]) b4 _
      (by rcases hcase with hl | hr
          · exact Or.inl hl.symm
          · exact Or.inr hr)

/-- C7 witness: a PRIORITY header with stream id 1: dependency 1 is
rejected, weight 0 is rejected, weight 256 with dependency 3 is
accepted, and the parse of a payload carrying dependency 1 is
rejected. -/
theorem C7_priority_rules_witness :
    isFailure (HTTP2PriorityFrame.init ⟨2, 5, 1, some 0⟩ 1 16 false) = true ∧
    isFailure (HTTP2PriorityFrame.init ⟨2, 5, 1, some 0⟩ 3 0 false) = true ∧
    HTTP2PriorityFrame.init ⟨2, 5, 1, some 0⟩ 3 256 false
      = .ok ⟨⟨2, 5, 1, some 0⟩, 3, 256⟩ ∧
    isFailure (HTTP2PriorityFrame.parse_frame ⟨2, 5, 1, some 0⟩ [0, 0, 0, 1, 16]) = true :=
  ⟨(C7_priority_rules ⟨2, 5, 1, some 0⟩ 1 16 false rfl).1 rfl,
   (C7_priority_rules ⟨2, 5, 1, some 0⟩ 3 0 false rfl).2.1 (Or.inl rfl),
   (C7_priority_rules ⟨2, 5, 1, some 0⟩ 3 256 false rfl).2.2.1
     (by decide) (by decide) (by decide) (Or.inr rfl),
   (C7_priority_rules ⟨2, 5, 1, some 0⟩ 0 0 false rfl).2.2.2 0 0 0 1 16 rfl
     (Or.inl (by decide))⟩

/-! ## Claim theorems for the HPACK table -/

/-- C2: the dynamic-table size bound is violated by the code.  From a
fresh table with `max_dynamic_table_size = 100`, four appends of the
33-octet entry `("a", "")` all pass `__check_dynamic_table` (which
reads the never-updated `__dynamic_table_size = 0`), leaving four
entries whose sizes sum to 132 > 100. -/
theorem C2_size_invariant_violated :
    HTTP2Hpack.init [] 100 = .ok ⟨hpack_static_table, [], 0, 100⟩ ∧
    ((((⟨hpack_static_table, [], 0, 100⟩ : HTTP2Hpack).append_header
        ("a", "")).append_header ("a", "")).append_header
        ("a", "")).append_header ("a", "")
      = ⟨hpack_static_table,
         [("a", ""), ("a", ""), ("a", ""), ("a", "")], 0, 100⟩ ∧
    sumSize [("a", ""), ("a", ""), ("a", ""), ("a", "")] = 132 ∧
    ¬ (132 : Nat) ≤ 100 :=
  ⟨rfl, rfl, rfl, by decide⟩

/-- C3: appending an entry larger than `max_dynamic_table_size` empties
the dynamic table and does not insert the entry (the other fields are
untouched). -/
theorem C3_oversized_entry_clears_table (st : HTTP2Hpack)
    (name value : String)
    (hbig : st.max_dynamic_table_size < name.length + value.length + 32) :
    st.append_header (name, value) = { st with dynamic := [] } := by
  unfold HTTP2Hpack.append_header HTTP2Hpack.check_dynamic_table
  have h1 : ¬ (st.dynamic_table_size + (32 + name.length + value.length)
      < st.max_dynamic_table_size) := by omega
  have h2 : 32 + name.length + value.length > st.max_dynamic_table_size := by
    omega
  simp [h1, h2]

/-- C3 witness: a 34-octet entry against a 10-octet bound clears the
one-entry table and inserts nothing. -/
theorem C3_oversized_entry_clears_table_witness :
    HTTP2Hpack.append_header
        ⟨hpack_static_table, [("x", "y")], 34, 10⟩ ("a", "b")
      = ⟨hpack_static_table, [], 34, 10⟩ :=
  C3_oversized_entry_clears_table
    ⟨hpack_static_table, [("x", "y")], 34, 10⟩ "a" "b" (by decide)

/-- C4: on a fresh table, `decode_indexed 1` returns
`(":authority", "")` and `decode_indexed 62` (one past
`len(static) + len(dynamic) = 61`) raises `HTTP2HpackDecodeError` --
but `decode_indexed 0` does NOT raise: the decremented index `-1` is a
Python negative subscript and resolves to the LAST static entry. -/
theorem C4_decode_indexed_zero_wraps :
    HTTP2Hpack.init [] 4096 = .ok ⟨hpack_static_table, [], 0, 4096⟩ ∧
    hpack_static_table.length = 61 ∧
    HTTP2Hpack.decode_indexed ⟨hpack_static_table, [], 0, 4096⟩ 1
      = .ok (":authority", "") ∧
    HTTP2Hpack.decode_indexed ⟨hpack_static_table, [], 0, 4096⟩ 0
      = .ok ("www-authenticat", "") ∧
    HTTP2Hpack.decode_indexed ⟨hpack_static_table, [], 0, 4096⟩ 62
      = .error .hpackDecodeError :=
  ⟨rfl, rfl, rfl, rfl, rfl⟩

/-- C9: after appending a fitting entry, the lowest dynamic index
`len(static) + 1 = 62` resolves to the OLDEST entry, not the appended
one: `append_header` appends at the back of `__dynamic` while
`decode_indexed` counts the dynamic table from the front. -/
theorem C9_lowest_dynamic_index_is_oldest :
    HTTP2Hpack.init [("a", "b")] 1000
      = .ok ⟨hpack_static_table, [("a", "b")], 34, 1000⟩ ∧
    HTTP2Hpack.append_header
        ⟨hpack_static_table, [("a", "b")], 34, 1000⟩ ("c", "d")
      = ⟨hpack_static_table, [("a", "b"), ("c", "d")], 34, 1000⟩ ∧
    HTTP2Hpack.decode_indexed
        ⟨hpack_static_table, [("a", "b"), ("c", "d")], 34, 1000⟩ 62
      = .ok ("a", "b") ∧
    (("a", "b") : String × String) ≠ ("c", "d") :=
  ⟨rfl, rfl, rfl, by decide⟩

/-- C10: a non-tuple argument makes both `append_header` and
`inside_index_table` raise `ValueError`, and `append_header` leaves the
object state (dynamic table and size accounting included) unchanged. -/
theorem C10_non_tuple_raises_value_error (st : HTTP2Hpack) (v : PyVal)
    (hv : v.isTuple = false) :
    st.append_header_py v = (st, some PyErr.valueError) ∧
    st.inside_index_table v = .error .valueError := by
  cases v with
  | tuple a b => simp [PyVal.isTuple] at hv
  | pystr s => exact ⟨rfl, rfl⟩
  | pyint n => exact ⟨rfl, rfl⟩
  | pylist l => exact ⟨rfl, rfl⟩
  | pynone => exact ⟨rfl, rfl⟩

/-- C10 witness: Python `None` as the argument. -/
theorem C10_non_tuple_raises_value_error_witness :
    HTTP2Hpack.append_header_py ⟨hpack_static_table, [], 0, 4096⟩ .pynone
      = (⟨hpack_static_table, [], 0, 4096⟩, some PyErr.valueError) ∧
    HTTP2Hpack.inside_index_table ⟨hpack_static_table, [], 0, 4096⟩ .pynone
      = .error .valueError :=
  C10_non_tuple_raises_value_error ⟨hpack_static_table, [], 0, 4096⟩ .pynone rfl
